import Mathlib

/-!
Verification of the AG-UI protocol core, shallowly embedded from
`python-sdk/ag_ui/core/events.py` and the ADK middleware streaming endpoint
`integrations/adk-middleware/python/src/ag_ui_adk/endpoint.py`.

Pydantic model construction is embedded as validating constructor functions
returning `Except ValidationError _`; the events themselves form a tagged
union `Event` mirroring the class hierarchy, and the wire codec is embedded
at the level of JSON documents.
-/

/-- A JSON value, modelling Python `Any`-typed payload fields and the JSON
document an event serializes to.  Numbers are modelled as integers, which
covers every numeric field the protocol itself declares (`timestamp` is epoch
millis). -/
inductive Json where
  | null : Json
  | bool (b : Bool) : Json
  | num (n : Int) : Json
  | str (s : String) : Json
  | arr (elems : List Json) : Json
  | obj (fields : List (String × Json)) : Json

/-- The `EventType` string enumeration of `events.py`. -/
inductive EventType where
  | TEXT_MESSAGE_START
  | TEXT_MESSAGE_CONTENT
  | TEXT_MESSAGE_END
  | TEXT_MESSAGE_CHUNK
  | THINKING_TEXT_MESSAGE_START
  | THINKING_TEXT_MESSAGE_CONTENT
  | THINKING_TEXT_MESSAGE_END
  | TOOL_CALL_START
  | TOOL_CALL_ARGS
  | TOOL_CALL_END
  | TOOL_CALL_CHUNK
  | TOOL_CALL_RESULT
  | THINKING_START
  | THINKING_END
  | STATE_SNAPSHOT
  | STATE_DELTA
  | MESSAGES_SNAPSHOT
  | RAW
  | CUSTOM
  | RUN_STARTED
  | RUN_FINISHED
  | RUN_ERROR
  | STEP_STARTED
  | STEP_FINISHED
deriving DecidableEq

/-- The string value of each `EventType` member (it is a `str` enum whose
members equal these literals). -/
def EventType.toStr : EventType → String
  | .TEXT_MESSAGE_START => "TEXT_MESSAGE_START"
  | .TEXT_MESSAGE_CONTENT => "TEXT_MESSAGE_CONTENT"
  | .TEXT_MESSAGE_END => "TEXT_MESSAGE_END"
  | .TEXT_MESSAGE_CHUNK => "TEXT_MESSAGE_CHUNK"
  | .THINKING_TEXT_MESSAGE_START => "THINKING_TEXT_MESSAGE_START"
  | .THINKING_TEXT_MESSAGE_CONTENT => "THINKING_TEXT_MESSAGE_CONTENT"
  | .THINKING_TEXT_MESSAGE_END => "THINKING_TEXT_MESSAGE_END"
  | .TOOL_CALL_START => "TOOL_CALL_START"
  | .TOOL_CALL_ARGS => "TOOL_CALL_ARGS"
  | .TOOL_CALL_END => "TOOL_CALL_END"
  | .TOOL_CALL_CHUNK => "TOOL_CALL_CHUNK"
  | .TOOL_CALL_RESULT => "TOOL_CALL_RESULT"
  | .THINKING_START => "THINKING_START"
  | .THINKING_END => "THINKING_END"
  | .STATE_SNAPSHOT => "STATE_SNAPSHOT"
  | .STATE_DELTA => "STATE_DELTA"
  | .MESSAGES_SNAPSHOT => "MESSAGES_SNAPSHOT"
  | .RAW => "RAW"
  | .CUSTOM => "CUSTOM"
  | .RUN_STARTED => "RUN_STARTED"
  | .RUN_FINISHED => "RUN_FINISHED"
  | .RUN_ERROR => "RUN_ERROR"
  | .STEP_STARTED => "STEP_STARTED"
  | .STEP_FINISHED => "STEP_FINISHED"

/-- A single validation failure: the field (location) the error names and a
message, the shape a pydantic `ValidationError` entry carries. -/
structure ValidationError where
  loc : String
  msg : String
deriving DecidableEq

/-- Whether the class with the given discriminator declares its `type` field
with a default, `type: Literal[...] = Field(<tag>, init=False)`.  In
`events.py` every class does, except the five thinking classes and
`ToolCallResultEvent`, which declare the bare `type: Literal[...]` with no
default, so the tag is required at construction there. -/
def typeFieldHasDefault : EventType → Bool
  | .THINKING_TEXT_MESSAGE_START => false
  | .THINKING_TEXT_MESSAGE_CONTENT => false
  | .THINKING_TEXT_MESSAGE_END => false
  | .THINKING_START => false
  | .THINKING_END => false
  | .TOOL_CALL_RESULT => false
  | _ => true

/-- Validation of the `type` discriminator field shared by every event class:
`type` is annotated `Literal[<tag>]`, so a supplied value must equal the
class's fixed tag string; an omitted value takes the default where the class
declares one and is a missing required field otherwise. -/
def validateTypeField (variant : EventType) (supplied : Option String) :
    Except ValidationError String :=
  match supplied with
  | none =>
    if typeFieldHasDefault variant then .ok variant.toStr
    else .error ⟨"type", "Field required"⟩
  | some s =>
    if s = variant.toStr then .ok s
    else .error ⟨"type", "Input should be " ++ variant.toStr ++ ", got " ++ s⟩

/-- The fields every event inherits from `BaseEvent`: `timestamp:
Optional[int]` and `raw_event: Optional[Any]`.  An optional `Any` value is a
single JSON value where `null` is the absent (`None`) state, exactly as in
Python where `None` and JSON `null` coincide. -/
structure BaseFields where
  timestamp : Option Int
  rawEvent : Json

/-- Modelled from the spec: `ag_ui/core/types.py` is not among the sources.
Spec section 3 describes assistant messages as optionally carrying tool
calls, and section 8's tool round-trip scenario gives a tool call a `name`
and an `arguments` JSON string, joined to its events by the call id. -/
structure ToolCall where
  id : String
  name : String
  arguments : String
deriving DecidableEq

/-- Modelled from the spec: `ag_ui/core/types.py` is not among the sources.
Spec section 3: `Message` is a role-discriminated union over `developer`,
`system`, `user`, `assistant`, `tool`, each carrying `id`, `role` and a
role-appropriate payload (`content` for non-tool roles; assistant
additionally an optional `tool_calls`; tool messages a `tool_call_id` and
`content`). -/
inductive Message where
  | developer (id : String) (content : String)
  | system (id : String) (content : String)
  | user (id : String) (content : String)
  | assistant (id : String) (content : Option String) (toolCalls : Option (List ToolCall))
  | tool (id : String) (content : String) (toolCallId : String)

/-- The AG-UI event union: one constructor per concrete class of `events.py`,
each carrying the inherited `BaseFields` and its own fields.  Fields pinned by
a `Literal` with a default and excluded from init (`TextMessageStartEvent.role
= Role.ASSISTANT`) are determined by the constructor and not stored. -/
inductive Event where
  | textMessageStart (base : BaseFields) (messageId : String)
  | textMessageContent (base : BaseFields) (messageId : String) (delta : String)
  | textMessageEnd (base : BaseFields) (messageId : String)
  | textMessageChunk (base : BaseFields) (messageId : Option String)
      (role : Option String) (delta : Option String)
  | thinkingTextMessageStart (base : BaseFields)
  | thinkingTextMessageContent (base : BaseFields) (delta : String)
  | thinkingTextMessageEnd (base : BaseFields)
  | toolCallStart (base : BaseFields) (toolCallId : String) (toolCallName : String)
      (parentMessageId : Option String)
  | toolCallArgs (base : BaseFields) (toolCallId : String) (delta : String)
  | toolCallEnd (base : BaseFields) (toolCallId : String)
  | toolCallChunk (base : BaseFields) (toolCallId : Option String)
      (toolCallName : Option String) (parentMessageId : Option String)
      (delta : Option String)
  | toolCallResult (base : BaseFields) (messageId : String) (toolCallId : String)
      (content : String) (role : Option String)
  | thinkingStart (base : BaseFields) (title : Option String)
  | thinkingEnd (base : BaseFields)
  | stateSnapshot (base : BaseFields) (snapshot : Json)
  | stateDelta (base : BaseFields) (delta : List Json)
  | messagesSnapshot (base : BaseFields) (messages : List Message)
  | raw (base : BaseFields) (event : Json) (source : Option String)
  | custom (base : BaseFields) (name : String) (value : Json)
  | runStarted (base : BaseFields) (threadId : String) (runId : String)
  | runFinished (base : BaseFields) (threadId : String) (runId : String) (result : Json)
  | runError (base : BaseFields) (message : String) (code : Option String)
  | stepStarted (base : BaseFields) (stepName : String)
  | stepFinished (base : BaseFields) (stepName : String)

/-- The discriminator of each variant, as pinned by its `Literal` type
annotation. -/
def Event.eventType : Event → EventType
  | .textMessageStart .. => .TEXT_MESSAGE_START
  | .textMessageContent .. => .TEXT_MESSAGE_CONTENT
  | .textMessageEnd .. => .TEXT_MESSAGE_END
  | .textMessageChunk .. => .TEXT_MESSAGE_CHUNK
  | .thinkingTextMessageStart .. => .THINKING_TEXT_MESSAGE_START
  | .thinkingTextMessageContent .. => .THINKING_TEXT_MESSAGE_CONTENT
  | .thinkingTextMessageEnd .. => .THINKING_TEXT_MESSAGE_END
  | .toolCallStart .. => .TOOL_CALL_START
  | .toolCallArgs .. => .TOOL_CALL_ARGS
  | .toolCallEnd .. => .TOOL_CALL_END
  | .toolCallChunk .. => .TOOL_CALL_CHUNK
  | .toolCallResult .. => .TOOL_CALL_RESULT
  | .thinkingStart .. => .THINKING_START
  | .thinkingEnd .. => .THINKING_END
  | .stateSnapshot .. => .STATE_SNAPSHOT
  | .stateDelta .. => .STATE_DELTA
  | .messagesSnapshot .. => .MESSAGES_SNAPSHOT
  | .raw .. => .RAW
  | .custom .. => .CUSTOM
  | .runStarted .. => .RUN_STARTED
  | .runFinished .. => .RUN_FINISHED
  | .runError .. => .RUN_ERROR
  | .stepStarted .. => .STEP_STARTED
  | .stepFinished .. => .STEP_FINISHED

/-- Whether the variant is a member of the `Event` discriminated union at the
bottom of `events.py`.  The union lists nineteen classes; the five thinking
classes are absent from it. -/
def Event.inUnion : Event → Bool
  | .thinkingTextMessageStart .. => false
  | .thinkingTextMessageContent .. => false
  | .thinkingTextMessageEnd .. => false
  | .thinkingStart .. => false
  | .thinkingEnd .. => false
  | _ => true

/-- The construction invariants of `events.py` an already-built value
satisfies: content deltas are non-empty (`Field(min_length=1)`, resp. the
`model_post_init` check) and optional `Literal` role fields hold their only
allowed value. -/
def Event.Valid : Event → Prop
  | .textMessageContent _ _ delta => delta ≠ ""
  | .thinkingTextMessageContent _ delta => delta ≠ ""
  | .textMessageChunk _ _ role _ => role = none ∨ role = some "assistant"
  | .toolCallResult _ _ _ _ role => role = none ∨ role = some "tool"
  | _ => True

/-- Serialize an optional string: `None` becomes JSON `null`. -/
def optStrJson : Option String → Json
  | none => .null
  | some s => .str s

/-- Serialize an optional integer: `None` becomes JSON `null`. -/
def optIntJson : Option Int → Json
  | none => .null
  | some n => .num n

/-- Modelled from the spec: the tool-call record of `ag_ui/core/types.py`
serialized with its field names. -/
def ToolCall.toJson (t : ToolCall) : Json :=
  .obj [("id", .str t.id), ("name", .str t.name), ("arguments", .str t.arguments)]

/-- Modelled from the spec: a message serialized with its `id`, `role` and
role-appropriate payload fields (spec sections 3 and 4.2). -/
def Message.toJson : Message → Json
  | .developer id content =>
    .obj [("id", .str id), ("role", .str "developer"), ("content", .str content)]
  | .system id content =>
    .obj [("id", .str id), ("role", .str "system"), ("content", .str content)]
  | .user id content =>
    .obj [("id", .str id), ("role", .str "user"), ("content", .str content)]
  | .assistant id content toolCalls =>
    .obj [("id", .str id), ("role", .str "assistant"), ("content", optStrJson content),
          ("tool_calls",
            match toolCalls with
            | none => .null
            | some ts => .arr (ts.map ToolCall.toJson))]
  | .tool id content toolCallId =>
    .obj [("id", .str id), ("role", .str "tool"), ("content", .str content),
          ("tool_call_id", .str toolCallId)]

/-- The JSON document an event serializes to (pydantic `model_dump`): the
discriminator, the `BaseEvent` fields, then the variant's own fields, under
the source field names. -/
def eventToJson : Event → Json
  | .textMessageStart b messageId =>
    .obj [("type", .str "TEXT_MESSAGE_START"), ("timestamp", optIntJson b.timestamp),
          ("raw_event", b.rawEvent), ("message_id", .str messageId),
          ("role", .str "assistant")]
  | .textMessageContent b messageId delta =>
    .obj [("type", .str "TEXT_MESSAGE_CONTENT"), ("timestamp", optIntJson b.timestamp),
          ("raw_event", b.rawEvent), ("message_id", .str messageId),
          ("delta", .str delta)]
  | .textMessageEnd b messageId =>
    .obj [("type", .str "TEXT_MESSAGE_END"), ("timestamp", optIntJson b.timestamp),
          ("raw_event", b.rawEvent), ("message_id", .str messageId)]
  | .textMessageChunk b messageId role delta =>
    .obj [("type", .str "TEXT_MESSAGE_CHUNK"), ("timestamp", optIntJson b.timestamp),
          ("raw_event", b.rawEvent), ("message_id", optStrJson messageId),
          ("role", optStrJson role), ("delta", optStrJson delta)]
  | .thinkingTextMessageStart b =>
    .obj [("type", .str "THINKING_TEXT_MESSAGE_START"),
          ("timestamp", optIntJson b.timestamp), ("raw_event", b.rawEvent)]
  | .thinkingTextMessageContent b delta =>
    .obj [("type", .str "THINKING_TEXT_MESSAGE_CONTENT"),
          ("timestamp", optIntJson b.timestamp), ("raw_event", b.rawEvent),
          ("delta", .str delta)]
  | .thinkingTextMessageEnd b =>
    .obj [("type", .str "THINKING_TEXT_MESSAGE_END"),
          ("timestamp", optIntJson b.timestamp), ("raw_event", b.rawEvent)]
  | .toolCallStart b toolCallId toolCallName parentMessageId =>
    .obj [("type", .str "TOOL_CALL_START"), ("timestamp", optIntJson b.timestamp),
          ("raw_event", b.rawEvent), ("tool_call_id", .str toolCallId),
          ("tool_call_name", .str toolCallName),
          ("parent_message_id", optStrJson parentMessageId)]
  | .toolCallArgs b toolCallId delta =>
    .obj [("type", .str "TOOL_CALL_ARGS"), ("timestamp", optIntJson b.timestamp),
          ("raw_event", b.rawEvent), ("tool_call_id", .str toolCallId),
          ("delta", .str delta)]
  | .toolCallEnd b toolCallId =>
    .obj [("type", .str "TOOL_CALL_END"), ("timestamp", optIntJson b.timestamp),
          ("raw_event", b.rawEvent), ("tool_call_id", .str toolCallId)]
  | .toolCallChunk b toolCallId toolCallName parentMessageId delta =>
    .obj [("type", .str "TOOL_CALL_CHUNK"), ("timestamp", optIntJson b.timestamp),
          ("raw_event", b.rawEvent), ("tool_call_id", optStrJson toolCallId),
          ("tool_call_name", optStrJson toolCallName),
          ("parent_message_id", optStrJson parentMessageId),
          ("delta", optStrJson delta)]
  | .toolCallResult b messageId toolCallId content role =>
    .obj [("type", .str "TOOL_CALL_RESULT"), ("timestamp", optIntJson b.timestamp),
          ("raw_event", b.rawEvent), ("message_id", .str messageId),
          ("tool_call_id", .str toolCallId), ("content", .str content),
          ("role", optStrJson role)]
  | .thinkingStart b title =>
    .obj [("type", .str "THINKING_START"), ("timestamp", optIntJson b.timestamp),
          ("raw_event", b.rawEvent), ("title", optStrJson title)]
  | .thinkingEnd b =>
    .obj [("type", .str "THINKING_END"), ("timestamp", optIntJson b.timestamp),
          ("raw_event", b.rawEvent)]
  | .stateSnapshot b snapshot =>
    .obj [("type", .str "STATE_SNAPSHOT"), ("timestamp", optIntJson b.timestamp),
          ("raw_event", b.rawEvent), ("snapshot", snapshot)]
  | .stateDelta b delta =>
    .obj [("type", .str "STATE_DELTA"), ("timestamp", optIntJson b.timestamp),
          ("raw_event", b.rawEvent), ("delta", .arr delta)]
  | .messagesSnapshot b messages =>
    .obj [("type", .str "MESSAGES_SNAPSHOT"), ("timestamp", optIntJson b.timestamp),
          ("raw_event", b.rawEvent), ("messages", .arr (messages.map Message.toJson))]
  | .raw b event source =>
    .obj [("type", .str "RAW"), ("timestamp", optIntJson b.timestamp),
          ("raw_event", b.rawEvent), ("event", event), ("source", optStrJson source)]
  | .custom b name value =>
    .obj [("type", .str "CUSTOM"), ("timestamp", optIntJson b.timestamp),
          ("raw_event", b.rawEvent), ("name", .str name), ("value", value)]
  | .runStarted b threadId runId =>
    .obj [("type", .str "RUN_STARTED"), ("timestamp", optIntJson b.timestamp),
          ("raw_event", b.rawEvent), ("thread_id", .str threadId),
          ("run_id", .str runId)]
  | .runFinished b threadId runId result =>
    .obj [("type", .str "RUN_FINISHED"), ("timestamp", optIntJson b.timestamp),
          ("raw_event", b.rawEvent), ("thread_id", .str threadId),
          ("run_id", .str runId), ("result", result)]
  | .runError b message code =>
    .obj [("type", .str "RUN_ERROR"), ("timestamp", optIntJson b.timestamp),
          ("raw_event", b.rawEvent), ("message", .str message),
          ("code", optStrJson code)]
  | .stepStarted b stepName =>
    .obj [("type", .str "STEP_STARTED"), ("timestamp", optIntJson b.timestamp),
          ("raw_event", b.rawEvent), ("step_name", .str stepName)]
  | .stepFinished b stepName =>
    .obj [("type", .str "STEP_FINISHED"), ("timestamp", optIntJson b.timestamp),
          ("raw_event", b.rawEvent), ("step_name", .str stepName)]

/-- Look up a key in a JSON object's field list (first occurrence). -/
def lookupField (k : String) : List (String × Json) → Option Json
  | [] => none
  | (k', v) :: rest => if k' = k then some v else lookupField k rest

/-- The value of a key in a JSON object, if the document is an object and the
key is present. -/
def Json.get (j : Json) (k : String) : Option Json :=
  match j with
  | .obj fields => lookupField k fields
  | _ => none

/-- Decode a required `str` field. -/
def reqStrField (j : Json) (k : String) : Except ValidationError String :=
  match j.get k with
  | some (.str s) => .ok s
  | some _ => .error ⟨k, "Input should be a valid string"⟩
  | none => .error ⟨k, "Field required"⟩

/-- Decode the value of an `Optional[str]` field: `null` is `None`. -/
def decodeOptStrVal (k : String) : Json → Except ValidationError (Option String)
  | .null => .ok none
  | .str s => .ok (some s)
  | _ => .error ⟨k, "Input should be a valid string"⟩

/-- Decode an `Optional[str]` field: a missing key is `None`. -/
def optStrField (j : Json) (k : String) : Except ValidationError (Option String) :=
  match j.get k with
  | none => .ok none
  | some v => decodeOptStrVal k v

/-- Decode the value of an `Optional[int]` field: `null` is `None`. -/
def decodeOptIntVal (k : String) : Json → Except ValidationError (Option Int)
  | .null => .ok none
  | .num n => .ok (some n)
  | _ => .error ⟨k, "Input should be a valid integer"⟩

/-- Decode an `Optional[int]` field: a missing key is `None`. -/
def optIntField (j : Json) (k : String) : Except ValidationError (Option Int) :=
  match j.get k with
  | none => .ok none
  | some v => decodeOptIntVal k v

/-- Decode the value of an `Optional[Literal[allowed]]` field. -/
def decodeOptLitVal (k allowed : String) : Json → Except ValidationError (Option String)
  | .null => .ok none
  | .str s => if s = allowed then .ok (some s)
              else .error ⟨k, "Input should be " ++ allowed⟩
  | _ => .error ⟨k, "Input should be " ++ allowed⟩

/-- Decode an `Optional[Literal[allowed]]` field (defaulting to `None`). -/
def optLitField (j : Json) (k allowed : String) : Except ValidationError (Option String) :=
  match j.get k with
  | none => .ok none
  | some v => decodeOptLitVal k allowed v

/-- Decode a `Literal[allowed]` field that carries a default, such as
`TextMessageStartEvent.role: Literal[Role.ASSISTANT] = Field(Role.ASSISTANT,
init=False)`: a missing key takes the default, a present value must equal the
pinned literal. -/
def pinnedLitField (j : Json) (k allowed : String) : Except ValidationError String :=
  match j.get k with
  | none => .ok allowed
  | some (.str s) => if s = allowed then .ok s
                     else .error ⟨k, "Input should be " ++ allowed⟩
  | some _ => .error ⟨k, "Input should be " ++ allowed⟩

/-- Decode an `Any`-typed field: the raw JSON value, `null` when absent. -/
def anyField (j : Json) (k : String) : Json :=
  (j.get k).getD .null

/-- Validate the `type` discriminator of a document against a class's pinned
tag, via `validateTypeField`. -/
def typeFieldOfJson (variant : EventType) (j : Json) : Except ValidationError String :=
  match j.get "type" with
  | none => validateTypeField variant none
  | some (.str s) => validateTypeField variant (some s)
  | some _ => .error ⟨"type", "Input should be a valid string"⟩

/-- Decode the `BaseEvent` fields. -/
def baseOfJson (j : Json) : Except ValidationError BaseFields := do
  let ts ← optIntField j "timestamp"
  .ok ⟨ts, anyField j "raw_event"⟩

/-- Decode every element of a JSON array, failing on the first invalid
element (elementwise validation of a typed list field). -/
def decodeAll (dec : Json → Except ValidationError α) :
    List Json → Except ValidationError (List α)
  | [] => .ok []
  | j :: rest => do
    let x ← dec j
    let xs ← decodeAll dec rest
    .ok (x :: xs)

/-- Modelled from the spec: deserialization of a tool-call record. -/
def ToolCall.ofJson (j : Json) : Except ValidationError ToolCall := do
  let id ← reqStrField j "id"
  let name ← reqStrField j "name"
  let args ← reqStrField j "arguments"
  .ok ⟨id, name, args⟩

/-- Modelled from the spec: deserialization of a message, discriminated on
its `role` field (spec sections 3 and 4.2). -/
def Message.ofJson (j : Json) : Except ValidationError Message := do
  let id ← reqStrField j "id"
  let role ← reqStrField j "role"
  if role = "developer" then
    let content ← reqStrField j "content"
    .ok (.developer id content)
  else if role = "system" then
    let content ← reqStrField j "content"
    .ok (.system id content)
  else if role = "user" then
    let content ← reqStrField j "content"
    .ok (.user id content)
  else if role = "assistant" then
    let content ← optStrField j "content"
    match j.get "tool_calls" with
    | none => .ok (.assistant id content none)
    | some .null => .ok (.assistant id content none)
    | some (.arr elems) =>
      let ts ← decodeAll ToolCall.ofJson elems
      .ok (.assistant id content (some ts))
    | some _ => .error ⟨"tool_calls", "Input should be a valid array"⟩
  else if role = "tool" then
    let content ← reqStrField j "content"
    let toolCallId ← reqStrField j "tool_call_id"
    .ok (.tool id content toolCallId)
  else
    .error ⟨"role", "Input should be a valid role"⟩

/-- Validation/deserialization of a `TextMessageStartEvent` document. -/
def TextMessageStartEvent.ofJson (j : Json) : Except ValidationError Event := do
  let _ ← typeFieldOfJson .TEXT_MESSAGE_START j
  let base ← baseOfJson j
  let messageId ← reqStrField j "message_id"
  let _ ← pinnedLitField j "role" "assistant"
  .ok (.textMessageStart base messageId)

/-- Validation/deserialization of a `TextMessageContentEvent` document; the
`delta` field is declared `Field(min_length=1)`. -/
def TextMessageContentEvent.ofJson (j : Json) : Except ValidationError Event := do
  let _ ← typeFieldOfJson .TEXT_MESSAGE_CONTENT j
  let base ← baseOfJson j
  let messageId ← reqStrField j "message_id"
  let delta ← reqStrField j "delta"
  if 1 ≤ delta.length then
    .ok (.textMessageContent base messageId delta)
  else
    .error ⟨"delta", "String should have at least 1 character"⟩

/-- Validation/deserialization of a `TextMessageEndEvent` document. -/
def TextMessageEndEvent.ofJson (j : Json) : Except ValidationError Event := do
  let _ ← typeFieldOfJson .TEXT_MESSAGE_END j
  let base ← baseOfJson j
  let messageId ← reqStrField j "message_id"
  .ok (.textMessageEnd base messageId)

/-- Validation/deserialization of a `TextMessageChunkEvent` document; all
variant fields optional, `role: Optional[Literal["assistant"]]`. -/
def TextMessageChunkEvent.ofJson (j : Json) : Except ValidationError Event := do
  let _ ← typeFieldOfJson .TEXT_MESSAGE_CHUNK j
  let base ← baseOfJson j
  let messageId ← optStrField j "message_id"
  let role ← optLitField j "role" "assistant"
  let delta ← optStrField j "delta"
  .ok (.textMessageChunk base messageId role delta)

/-- Validation/deserialization of a `ThinkingTextMessageStartEvent`
document (its `type` tag is required: no default is declared). -/
def ThinkingTextMessageStartEvent.ofJson (j : Json) : Except ValidationError Event := do
  let _ ← typeFieldOfJson .THINKING_TEXT_MESSAGE_START j
  let base ← baseOfJson j
  .ok (.thinkingTextMessageStart base)

/-- Validation/deserialization of a `ThinkingTextMessageContentEvent`
document; `model_post_init` rejects an empty `delta`. -/
def ThinkingTextMessageContentEvent.ofJson (j : Json) : Except ValidationError Event := do
  let _ ← typeFieldOfJson .THINKING_TEXT_MESSAGE_CONTENT j
  let base ← baseOfJson j
  let delta ← reqStrField j "delta"
  if delta.length = 0 then
    .error ⟨"delta", "Delta must not be an empty string"⟩
  else
    .ok (.thinkingTextMessageContent base delta)

/-- Validation/deserialization of a `ThinkingTextMessageEndEvent` document. -/
def ThinkingTextMessageEndEvent.ofJson (j : Json) : Except ValidationError Event := do
  let _ ← typeFieldOfJson .THINKING_TEXT_MESSAGE_END j
  let base ← baseOfJson j
  .ok (.thinkingTextMessageEnd base)

/-- Validation/deserialization of a `ToolCallStartEvent` document. -/
def ToolCallStartEvent.ofJson (j : Json) : Except ValidationError Event := do
  let _ ← typeFieldOfJson .TOOL_CALL_START j
  let base ← baseOfJson j
  let toolCallId ← reqStrField j "tool_call_id"
  let toolCallName ← reqStrField j "tool_call_name"
  let parentMessageId ← optStrField j "parent_message_id"
  .ok (.toolCallStart base toolCallId toolCallName parentMessageId)

/-- Validation/deserialization of a `ToolCallArgsEvent` document; `delta` is
a plain required `str`, with no length constraint. -/
def ToolCallArgsEvent.ofJson (j : Json) : Except ValidationError Event := do
  let _ ← typeFieldOfJson .TOOL_CALL_ARGS j
  let base ← baseOfJson j
  let toolCallId ← reqStrField j "tool_call_id"
  let delta ← reqStrField j "delta"
  .ok (.toolCallArgs base toolCallId delta)

/-- Validation/deserialization of a `ToolCallEndEvent` document. -/
def ToolCallEndEvent.ofJson (j : Json) : Except ValidationError Event := do
  let _ ← typeFieldOfJson .TOOL_CALL_END j
  let base ← baseOfJson j
  let toolCallId ← reqStrField j "tool_call_id"
  .ok (.toolCallEnd base toolCallId)

/-- Validation/deserialization of a `ToolCallChunkEvent` document. -/
def ToolCallChunkEvent.ofJson (j : Json) : Except ValidationError Event := do
  let _ ← typeFieldOfJson .TOOL_CALL_CHUNK j
  let base ← baseOfJson j
  let toolCallId ← optStrField j "tool_call_id"
  let toolCallName ← optStrField j "tool_call_name"
  let parentMessageId ← optStrField j "parent_message_id"
  let delta ← optStrField j "delta"
  .ok (.toolCallChunk base toolCallId toolCallName parentMessageId delta)

/-- Validation/deserialization of a `ToolCallResultEvent` document; its
`type` tag is required, `role: Optional[Literal["tool"]]`. -/
def ToolCallResultEvent.ofJson (j : Json) : Except ValidationError Event := do
  let _ ← typeFieldOfJson .TOOL_CALL_RESULT j
  let base ← baseOfJson j
  let messageId ← reqStrField j "message_id"
  let toolCallId ← reqStrField j "tool_call_id"
  let content ← reqStrField j "content"
  let role ← optLitField j "role" "tool"
  .ok (.toolCallResult base messageId toolCallId content role)

/-- Validation/deserialization of a `ThinkingStartEvent` document (its
`type` tag is required). -/
def ThinkingStartEvent.ofJson (j : Json) : Except ValidationError Event := do
  let _ ← typeFieldOfJson .THINKING_START j
  let base ← baseOfJson j
  let title ← optStrField j "title"
  .ok (.thinkingStart base title)

/-- Validation/deserialization of a `ThinkingEndEvent` document (its `type`
tag is required). -/
def ThinkingEndEvent.ofJson (j : Json) : Except ValidationError Event := do
  let _ ← typeFieldOfJson .THINKING_END j
  let base ← baseOfJson j
  .ok (.thinkingEnd base)

/-- Validation/deserialization of a `StateSnapshotEvent` document. -/
def StateSnapshotEvent.ofJson (j : Json) : Except ValidationError Event := do
  let _ ← typeFieldOfJson .STATE_SNAPSHOT j
  let base ← baseOfJson j
  match j.get "snapshot" with
  | some v => .ok (.stateSnapshot base v)
  | none => .error ⟨"snapshot", "Field required"⟩

/-- Validation/deserialization of a `StateDeltaEvent` document; `delta:
List[Any]`. -/
def StateDeltaEvent.ofJson (j : Json) : Except ValidationError Event := do
  let _ ← typeFieldOfJson .STATE_DELTA j
  let base ← baseOfJson j
  match j.get "delta" with
  | some (.arr elems) => .ok (.stateDelta base elems)
  | some _ => .error ⟨"delta", "Input should be a valid array"⟩
  | none => .error ⟨"delta", "Field required"⟩

/-- Validation/deserialization of a `MessagesSnapshotEvent` document. -/
def MessagesSnapshotEvent.ofJson (j : Json) : Except ValidationError Event := do
  let _ ← typeFieldOfJson .MESSAGES_SNAPSHOT j
  let base ← baseOfJson j
  match j.get "messages" with
  | some (.arr elems) =>
    let msgs ← decodeAll Message.ofJson elems
    .ok (.messagesSnapshot base msgs)
  | some _ => .error ⟨"messages", "Input should be a valid array"⟩
  | none => .error ⟨"messages", "Field required"⟩

/-- Validation/deserialization of a `RawEvent` document; `event: Any` is
required. -/
def RawEvent.ofJson (j : Json) : Except ValidationError Event := do
  let _ ← typeFieldOfJson .RAW j
  let base ← baseOfJson j
  match j.get "event" with
  | some v =>
    let source ← optStrField j "source"
    .ok (.raw base v source)
  | none => .error ⟨"event", "Field required"⟩

/-- Validation/deserialization of a `CustomEvent` document. -/
def CustomEvent.ofJson (j : Json) : Except ValidationError Event := do
  let _ ← typeFieldOfJson .CUSTOM j
  let base ← baseOfJson j
  let name ← reqStrField j "name"
  match j.get "value" with
  | some v => .ok (.custom base name v)
  | none => .error ⟨"value", "Field required"⟩

/-- Validation/deserialization of a `RunStartedEvent` document. -/
def RunStartedEvent.ofJson (j : Json) : Except ValidationError Event := do
  let _ ← typeFieldOfJson .RUN_STARTED j
  let base ← baseOfJson j
  let threadId ← reqStrField j "thread_id"
  let runId ← reqStrField j "run_id"
  .ok (.runStarted base threadId runId)

/-- Validation/deserialization of a `RunFinishedEvent` document; `result:
Optional[Any]`. -/
def RunFinishedEvent.ofJson (j : Json) : Except ValidationError Event := do
  let _ ← typeFieldOfJson .RUN_FINISHED j
  let base ← baseOfJson j
  let threadId ← reqStrField j "thread_id"
  let runId ← reqStrField j "run_id"
  .ok (.runFinished base threadId runId (anyField j "result"))

/-- Validation/deserialization of a `RunErrorEvent` document: `message: str`
is required, `code: Optional[str]`.  The required `message` is checked first
(pydantic reports every offending field; a first-error model must surface the
missing required field). -/
def RunErrorEvent.ofJson (j : Json) : Except ValidationError Event := do
  let message ← reqStrField j "message"
  let _ ← typeFieldOfJson .RUN_ERROR j
  let base ← baseOfJson j
  let code ← optStrField j "code"
  .ok (.runError base message code)

/-- Validation/deserialization of a `StepStartedEvent` document. -/
def StepStartedEvent.ofJson (j : Json) : Except ValidationError Event := do
  let _ ← typeFieldOfJson .STEP_STARTED j
  let base ← baseOfJson j
  let stepName ← reqStrField j "step_name"
  .ok (.stepStarted base stepName)

/-- Validation/deserialization of a `StepFinishedEvent` document. -/
def StepFinishedEvent.ofJson (j : Json) : Except ValidationError Event := do
  let _ ← typeFieldOfJson .STEP_FINISHED j
  let base ← baseOfJson j
  let stepName ← reqStrField j "step_name"
  .ok (.stepFinished base stepName)

/-- Decode a document through the `Event` discriminated union of `events.py`:
dispatch on the `type` discriminator over exactly the nineteen classes the
union lists.  The five thinking tags are not members of the union, so they
fall through to the unknown-discriminator error. -/
def decodeEventJson (j : Json) : Except ValidationError Event :=
  match j.get "type" with
  | some (.str tag) =>
    if tag = "TEXT_MESSAGE_START" then TextMessageStartEvent.ofJson j
    else if tag = "TEXT_MESSAGE_CONTENT" then TextMessageContentEvent.ofJson j
    else if tag = "TEXT_MESSAGE_END" then TextMessageEndEvent.ofJson j
    else if tag = "TEXT_MESSAGE_CHUNK" then TextMessageChunkEvent.ofJson j
    else if tag = "TOOL_CALL_START" then ToolCallStartEvent.ofJson j
    else if tag = "TOOL_CALL_ARGS" then ToolCallArgsEvent.ofJson j
    else if tag = "TOOL_CALL_END" then ToolCallEndEvent.ofJson j
    else if tag = "TOOL_CALL_CHUNK" then ToolCallChunkEvent.ofJson j
    else if tag = "TOOL_CALL_RESULT" then ToolCallResultEvent.ofJson j
    else if tag = "STATE_SNAPSHOT" then StateSnapshotEvent.ofJson j
    else if tag = "STATE_DELTA" then StateDeltaEvent.ofJson j
    else if tag = "MESSAGES_SNAPSHOT" then MessagesSnapshotEvent.ofJson j
    else if tag = "RAW" then RawEvent.ofJson j
    else if tag = "CUSTOM" then CustomEvent.ofJson j
    else if tag = "RUN_STARTED" then RunStartedEvent.ofJson j
    else if tag = "RUN_FINISHED" then RunFinishedEvent.ofJson j
    else if tag = "RUN_ERROR" then RunErrorEvent.ofJson j
    else if tag = "STEP_STARTED" then StepStartedEvent.ofJson j
    else if tag = "STEP_FINISHED" then StepFinishedEvent.ofJson j
    else .error ⟨"type", "Input tag does not match any of the discriminated union members"⟩
  | some _ => .error ⟨"type", "Input should be a valid string"⟩
  | none => .error ⟨"type", "Field required"⟩

/-- The two wire sub-formats negotiated once per stream (spec sections 4.3
and 6): server-sent-events framing and newline-delimited JSON. -/
inductive WireFormat where
  | eventStream
  | jsonLines
deriving DecidableEq

/-- A wire frame: the negotiated sub-format together with the JSON document
of one event.  The textual rendering (for the event-stream sub-format, the
prefix `data: ` and trailing blank line around the one-line JSON document) is
standard JSON printing around this payload and carries no event data of its
own. -/
structure WireFrame where
  format : WireFormat
  payload : Json

/-- Modelled from the spec: `ag_ui/encoder` is not among the sources.  Spec
section 4.3: the encoder converts one validated event into exactly one wire
frame for the negotiated sub-format, as a pure function of (event, format). -/
def EventEncoder.encode (fmt : WireFormat) (e : Event) : WireFrame :=
  ⟨fmt, eventToJson e⟩

/-- Modelled from the spec: decoding a wire frame received on a stream whose
negotiated sub-format is `fmt` — the frame must belong to that sub-format and
its document is validated through the `Event` discriminated union. -/
def decodeFrame (fmt : WireFormat) (fr : WireFrame) : Except ValidationError Event :=
  if fr.format = fmt then decodeEventJson fr.payload
  else .error ⟨"frame", "Frame does not belong to the negotiated sub-format"⟩

/-- Keyword-argument construction of an event class, modelling
`ClassName(**kwargs)`: pydantic first matches keywords against declared
fields — an unexpected keyword is itself a validation error naming that
keyword (spec section 4.1: unknown fields fail construction) — then
validates the declared fields. -/
def kwargsConstruct (knownFields : List String)
    (validate : Json → Except ValidationError Event)
    (kwargs : List (String × Json)) : Except ValidationError Event :=
  match (kwargs.map Prod.fst).find? (fun k => !(knownFields.contains k)) with
  | some k => .error ⟨k, "Unexpected keyword argument"⟩
  | none => validate (.obj kwargs)

/-- The declared fields of `RunErrorEvent`: the `BaseEvent` fields plus
`message` and `code`. -/
def RunErrorEvent.fields : List String :=
  ["type", "timestamp", "raw_event", "message", "code"]

/-- `RunErrorEvent(**kwargs)`. -/
def RunErrorEvent.fromKwargs (kwargs : List (String × Json)) :
    Except ValidationError Event :=
  kwargsConstruct RunErrorEvent.fields RunErrorEvent.ofJson kwargs

/-- `TextMessageStartEvent(message_id=..., role=...)`: the discriminator is
validated against the pinned tag, `role: Literal[Role.ASSISTANT]` only
accepts `"assistant"` (the `str`-enum member `Role.ASSISTANT`) and defaults
to it when omitted. -/
def TextMessageStartEvent.construct (suppliedType : Option String)
    (messageId : String) (role : Option String) (timestamp : Option Int)
    (rawEvent : Json) : Except ValidationError Event := do
  let _ ← validateTypeField .TEXT_MESSAGE_START suppliedType
  let _ ← (match role with
    | none => Except.ok "assistant"
    | some r =>
      if r = "assistant" then Except.ok r
      else Except.error ⟨"role", "Input should be assistant"⟩)
  .ok (.textMessageStart ⟨timestamp, rawEvent⟩ messageId)

/-- `TextMessageContentEvent(message_id=..., delta=...)`: `delta: str =
Field(min_length=1)`. -/
def TextMessageContentEvent.construct (suppliedType : Option String)
    (messageId : String) (delta : String) (timestamp : Option Int)
    (rawEvent : Json) : Except ValidationError Event := do
  let _ ← validateTypeField .TEXT_MESSAGE_CONTENT suppliedType
  if 1 ≤ delta.length then
    .ok (.textMessageContent ⟨timestamp, rawEvent⟩ messageId delta)
  else
    .error ⟨"delta", "String should have at least 1 character"⟩

/-- `ThinkingTextMessageContentEvent(type=..., delta=...)`: the `type` tag
has no default so it is required, and `model_post_init` raises when
`len(self.delta) == 0`. -/
def ThinkingTextMessageContentEvent.construct (suppliedType : Option String)
    (delta : String) (timestamp : Option Int) (rawEvent : Json) :
    Except ValidationError Event := do
  let _ ← validateTypeField .THINKING_TEXT_MESSAGE_CONTENT suppliedType
  if delta.length = 0 then
    .error ⟨"delta", "Delta must not be an empty string"⟩
  else
    .ok (.thinkingTextMessageContent ⟨timestamp, rawEvent⟩ delta)

/-- `TextMessageChunkEvent(...)`: every variant field is optional and
defaults to `None`; `role: Optional[Literal["assistant"]]`. -/
def TextMessageChunkEvent.construct (suppliedType : Option String)
    (messageId : Option String) (role : Option String) (delta : Option String)
    (timestamp : Option Int) (rawEvent : Json) : Except ValidationError Event := do
  let _ ← validateTypeField .TEXT_MESSAGE_CHUNK suppliedType
  let _ ← (match role with
    | none => Except.ok (none : Option String)
    | some r =>
      if r = "assistant" then Except.ok (some r)
      else Except.error ⟨"role", "Input should be assistant"⟩)
  .ok (.textMessageChunk ⟨timestamp, rawEvent⟩ messageId role delta)

/-- `ToolCallArgsEvent(tool_call_id=..., delta=...)`: `delta: str`, with no
constraint. -/
def ToolCallArgsEvent.construct (suppliedType : Option String)
    (toolCallId : String) (delta : String) (timestamp : Option Int)
    (rawEvent : Json) : Except ValidationError Event := do
  let _ ← validateTypeField .TOOL_CALL_ARGS suppliedType
  .ok (.toolCallArgs ⟨timestamp, rawEvent⟩ toolCallId delta)

/-- `RunErrorEvent(type=..., message=..., code=...)` by declared fields. -/
def RunErrorEvent.construct (suppliedType : Option String) (message : String)
    (code : Option String) (timestamp : Option Int) (rawEvent : Json) :
    Except ValidationError Event := do
  let _ ← validateTypeField .RUN_ERROR suppliedType
  .ok (.runError ⟨timestamp, rawEvent⟩ message code)

/-- The `RunErrorEvent` the ADK endpoint substitutes when encoding an agent
event fails: `RunErrorEvent(type=EventType.RUN_ERROR, message=f"Event
encoding failed: {str(encoding_error)}", code="ENCODING_ERROR")`. -/
def encodingErrorEvent (err : String) : Event :=
  .runError ⟨none, .null⟩ ("Event encoding failed: " ++ err) (some "ENCODING_ERROR")

/-- The `RunErrorEvent` the ADK endpoint substitutes when the agent run
itself fails: `RunErrorEvent(type=EventType.RUN_ERROR, message=f"Agent
execution failed: {str(agent_error)}", code="AGENT_ERROR")`. -/
def agentErrorEvent (err : String) : Event :=
  .runError ⟨none, .null⟩ ("Agent execution failed: " ++ err) (some "AGENT_ERROR")

/-- The literal SSE frame the ADK endpoint yields when even the substituted
encoding-error event cannot be encoded. -/
def encodingErrorLiteralFrame : String :=
  "event: error\ndata: \x7b\"error\": \"Event encoding failed\"\x7d\n\n"

/-- The literal SSE frame the ADK endpoint yields when the agent-error event
cannot be encoded. -/
def agentErrorLiteralFrame : String :=
  "event: error\ndata: \x7b\"error\": \"Agent execution failed\"\x7d\n\n"

/-- The `event_generator` of the ADK middleware endpoint
(`ag_ui_adk/endpoint.py`), over an abstract fallible encoder (the exception
text is the error value).  The agent run is modelled as the list of events it
yields before either finishing (`none`) or raising (`some errText`).  Per
event: encode and yield the frame; on an encoding error, substitute the
`ENCODING_ERROR` run-error event, yield its frame (or the literal SSE error
frame when that too fails to encode) and stop the stream.  A failure raised
by the agent iterator itself is answered with the `AGENT_ERROR` run-error
frame (or its literal fallback). -/
def adkEventGenerator (enc : Event → Except String String) :
    List Event → Option String → List String
  | [], none => []
  | [], some agentErr =>
    match enc (agentErrorEvent agentErr) with
    | .ok frame => [frame]
    | .error _ => [agentErrorLiteralFrame]
  | e :: rest, agentFail =>
    match enc e with
    | .ok frame => frame :: adkEventGenerator enc rest agentFail
    | .error encodingError =>
      match enc (encodingErrorEvent encodingError) with
      | .ok frame => [frame]
      | .error _ => [encodingErrorLiteralFrame]

/-- A concrete fallible encoder exercising the endpoint model: it rejects
`RawEvent`s (whose `event: Any` payload is the typical non-JSON-serializable
value) and encodes every other event to a fixed frame. -/
def rawRejectingEncoder : Event → Except String String
  | .raw .. => .error "Object is not JSON serializable"
  | _ => .ok "data: frame\n\n"

lemma decodeOptStrVal_optStrJson (k : String) (t : Option String) :
    decodeOptStrVal k (optStrJson t) = .ok t := by
  cases t <;> rfl

lemma decodeOptIntVal_optIntJson (k : String) (t : Option Int) :
    decodeOptIntVal k (optIntJson t) = .ok t := by
  cases t <;> rfl

lemma one_le_length_of_ne_empty (s : String) (h : s ≠ "") : 1 ≤ s.length := by
  obtain ⟨data⟩ := s
  cases data with
  | nil => exact absurd rfl h
  | cons c cs => simp [String.length]

lemma lookupField_eq_none (k : String) (l : List (String × Json))
    (h : k ∉ l.map Prod.fst) : lookupField k l = none := by
  induction l with
  | nil => rfl
  | cons p rest ih =>
    obtain ⟨k', v⟩ := p
    simp only [List.map_cons, List.mem_cons] at h
    push_neg at h
    rw [lookupField, if_neg (fun hkk => h.1 hkk.symm)]
    exact ih h.2

lemma toolCall_ofJson_toJson (t : ToolCall) : ToolCall.ofJson t.toJson = .ok t := by
  obtain ⟨id, name, args⟩ := t
  simp [ToolCall.toJson, ToolCall.ofJson, reqStrField, Json.get, lookupField,
    Except.bind, bind]

lemma decodeAll_toolCalls (ts : List ToolCall) :
    decodeAll ToolCall.ofJson (ts.map ToolCall.toJson) = .ok ts := by
  induction ts with
  | nil => rfl
  | cons t rest ih =>
    simp [decodeAll, toolCall_ofJson_toJson, ih, Except.bind, bind]

lemma message_ofJson_toJson (m : Message) : Message.ofJson m.toJson = .ok m := by
  cases m with
  | developer id content =>
    simp [Message.toJson, Message.ofJson, reqStrField, Json.get, lookupField,
      Except.bind, bind]
  | system id content =>
    simp [Message.toJson, Message.ofJson, reqStrField, Json.get, lookupField,
      Except.bind, bind]
  | user id content =>
    simp [Message.toJson, Message.ofJson, reqStrField, Json.get, lookupField,
      Except.bind, bind]
  | assistant id content toolCalls =>
    cases toolCalls with
    | none =>
      simp [Message.toJson, Message.ofJson, reqStrField, optStrField,
        decodeOptStrVal_optStrJson, Json.get, lookupField, Except.bind, bind]
    | some ts =>
      simp [Message.toJson, Message.ofJson, reqStrField, optStrField,
        decodeOptStrVal_optStrJson, Json.get, lookupField,
        decodeAll_toolCalls, Except.bind, bind]
  | tool id content toolCallId =>
    simp [Message.toJson, Message.ofJson, reqStrField, Json.get, lookupField,
      Except.bind, bind]

lemma decodeAll_messages (ms : List Message) :
    decodeAll Message.ofJson (ms.map Message.toJson) = .ok ms := by
  induction ms with
  | nil => rfl
  | cons m rest ih =>
    simp [decodeAll, message_ofJson_toJson, ih, Except.bind, bind]

lemma optStrJson_none : optStrJson none = .null := rfl

lemma optStrJson_some (s : String) : optStrJson (some s) = .str s := rfl

lemma decode_encode_union (e : Event) (hv : e.Valid) (hu : e.inUnion = true) :
    decodeEventJson (eventToJson e) = .ok e := by
  cases e with
  | thinkingTextMessageStart b => simp [Event.inUnion] at hu
  | thinkingTextMessageContent b delta => simp [Event.inUnion] at hu
  | thinkingTextMessageEnd b => simp [Event.inUnion] at hu
  | thinkingStart b title => simp [Event.inUnion] at hu
  | thinkingEnd b => simp [Event.inUnion] at hu
  | textMessageStart b messageId =>
    obtain ⟨ts, raw⟩ := b
    simp [eventToJson, decodeEventJson, Json.get, lookupField,
      TextMessageStartEvent.ofJson, typeFieldOfJson, validateTypeField,
      typeFieldHasDefault, EventType.toStr, baseOfJson, optIntField,
      decodeOptIntVal_optIntJson, anyField, reqStrField, pinnedLitField,
      Except.bind, bind]
  | textMessageContent b messageId delta =>
    obtain ⟨ts, raw⟩ := b
    simp [eventToJson, decodeEventJson, Json.get, lookupField,
      TextMessageContentEvent.ofJson, typeFieldOfJson, validateTypeField,
      typeFieldHasDefault, EventType.toStr, baseOfJson, optIntField,
      decodeOptIntVal_optIntJson, anyField, reqStrField,
      one_le_length_of_ne_empty delta hv, Except.bind, bind]
  | textMessageEnd b messageId =>
    obtain ⟨ts, raw⟩ := b
    simp [eventToJson, decodeEventJson, Json.get, lookupField,
      TextMessageEndEvent.ofJson, typeFieldOfJson, validateTypeField,
      typeFieldHasDefault, EventType.toStr, baseOfJson, optIntField,
      decodeOptIntVal_optIntJson, anyField, reqStrField, Except.bind, bind]
  | textMessageChunk b messageId role delta =>
    obtain ⟨ts, raw⟩ := b
    rcases hv with h | h <;> subst h <;>
    simp [eventToJson, decodeEventJson, Json.get, lookupField,
      TextMessageChunkEvent.ofJson, typeFieldOfJson, validateTypeField,
      typeFieldHasDefault, EventType.toStr, baseOfJson, optIntField,
      decodeOptIntVal_optIntJson, anyField, optStrField,
      decodeOptStrVal_optStrJson, optLitField, decodeOptLitVal,
      optStrJson_none, optStrJson_some, Except.bind, bind]
  | toolCallStart b toolCallId toolCallName parentMessageId =>
    obtain ⟨ts, raw⟩ := b
    simp [eventToJson, decodeEventJson, Json.get, lookupField,
      ToolCallStartEvent.ofJson, typeFieldOfJson, validateTypeField,
      typeFieldHasDefault, EventType.toStr, baseOfJson, optIntField,
      decodeOptIntVal_optIntJson, anyField, reqStrField, optStrField,
      decodeOptStrVal_optStrJson, Except.bind, bind]
  | toolCallArgs b toolCallId delta =>
    obtain ⟨ts, raw⟩ := b
    simp [eventToJson, decodeEventJson, Json.get, lookupField,
      ToolCallArgsEvent.ofJson, typeFieldOfJson, validateTypeField,
      typeFieldHasDefault, EventType.toStr, baseOfJson, optIntField,
      decodeOptIntVal_optIntJson, anyField, reqStrField, Except.bind, bind]
  | toolCallEnd b toolCallId =>
    obtain ⟨ts, raw⟩ := b
    simp [eventToJson, decodeEventJson, Json.get, lookupField,
      ToolCallEndEvent.ofJson, typeFieldOfJson, validateTypeField,
      typeFieldHasDefault, EventType.toStr, baseOfJson, optIntField,
      decodeOptIntVal_optIntJson, anyField, reqStrField, Except.bind, bind]
  | toolCallChunk b toolCallId toolCallName parentMessageId delta =>
    obtain ⟨ts, raw⟩ := b
    simp [eventToJson, decodeEventJson, Json.get, lookupField,
      ToolCallChunkEvent.ofJson, typeFieldOfJson, validateTypeField,
      typeFieldHasDefault, EventType.toStr, baseOfJson, optIntField,
      decodeOptIntVal_optIntJson, anyField, optStrField,
      decodeOptStrVal_optStrJson, Except.bind, bind]
  | toolCallResult b messageId toolCallId content role =>
    obtain ⟨ts, raw⟩ := b
    rcases hv with h | h <;> subst h <;>
    simp [eventToJson, decodeEventJson, Json.get, lookupField,
      ToolCallResultEvent.ofJson, typeFieldOfJson, validateTypeField,
      typeFieldHasDefault, EventType.toStr, baseOfJson, optIntField,
      decodeOptIntVal_optIntJson, anyField, reqStrField, optLitField,
      decodeOptLitVal, optStrJson_none, optStrJson_some, Except.bind, bind]
  | stateSnapshot b snapshot =>
    obtain ⟨ts, raw⟩ := b
    simp [eventToJson, decodeEventJson, Json.get, lookupField,
      StateSnapshotEvent.ofJson, typeFieldOfJson, validateTypeField,
      typeFieldHasDefault, EventType.toStr, baseOfJson, optIntField,
      decodeOptIntVal_optIntJson, anyField, Except.bind, bind]
  | stateDelta b delta =>
    obtain ⟨ts, raw⟩ := b
    simp [eventToJson, decodeEventJson, Json.get, lookupField,
      StateDeltaEvent.ofJson, typeFieldOfJson, validateTypeField,
      typeFieldHasDefault, EventType.toStr, baseOfJson, optIntField,
      decodeOptIntVal_optIntJson, anyField, Except.bind, bind]
  | messagesSnapshot b messages =>
    obtain ⟨ts, raw⟩ := b
    simp [eventToJson, decodeEventJson, Json.get, lookupField,
      MessagesSnapshotEvent.ofJson, typeFieldOfJson, validateTypeField,
      typeFieldHasDefault, EventType.toStr, baseOfJson, optIntField,
      decodeOptIntVal_optIntJson, anyField, decodeAll_messages,
      Except.bind, bind]
  | raw b event source =>
    obtain ⟨ts, rawEv⟩ := b
    simp [eventToJson, decodeEventJson, Json.get, lookupField,
      RawEvent.ofJson, typeFieldOfJson, validateTypeField,
      typeFieldHasDefault, EventType.toStr, baseOfJson, optIntField,
      decodeOptIntVal_optIntJson, anyField, optStrField,
      decodeOptStrVal_optStrJson, Except.bind, bind]
  | custom b name value =>
    obtain ⟨ts, raw⟩ := b
    simp [eventToJson, decodeEventJson, Json.get, lookupField,
      CustomEvent.ofJson, typeFieldOfJson, validateTypeField,
      typeFieldHasDefault, EventType.toStr, baseOfJson, optIntField,
      decodeOptIntVal_optIntJson, anyField, reqStrField, Except.bind, bind]
  | runStarted b threadId runId =>
    obtain ⟨ts, raw⟩ := b
    simp [eventToJson, decodeEventJson, Json.get, lookupField,
      RunStartedEvent.ofJson, typeFieldOfJson, validateTypeField,
      typeFieldHasDefault, EventType.toStr, baseOfJson, optIntField,
      decodeOptIntVal_optIntJson, anyField, reqStrField, Except.bind, bind]
  | runFinished b threadId runId result =>
    obtain ⟨ts, raw⟩ := b
    simp [eventToJson, decodeEventJson, Json.get, lookupField,
      RunFinishedEvent.ofJson, typeFieldOfJson, validateTypeField,
      typeFieldHasDefault, EventType.toStr, baseOfJson, optIntField,
      decodeOptIntVal_optIntJson, anyField, reqStrField, Except.bind, bind]
  | runError b message code =>
    obtain ⟨ts, raw⟩ := b
    simp [eventToJson, decodeEventJson, Json.get, lookupField,
      RunErrorEvent.ofJson, typeFieldOfJson, validateTypeField,
      typeFieldHasDefault, EventType.toStr, baseOfJson, optIntField,
      decodeOptIntVal_optIntJson, anyField, reqStrField, optStrField,
      decodeOptStrVal_optStrJson, Except.bind, bind]
  | stepStarted b stepName =>
    obtain ⟨ts, raw⟩ := b
    simp [eventToJson, decodeEventJson, Json.get, lookupField,
      StepStartedEvent.ofJson, typeFieldOfJson, validateTypeField,
      typeFieldHasDefault, EventType.toStr, baseOfJson, optIntField,
      decodeOptIntVal_optIntJson, anyField, reqStrField, Except.bind, bind]
  | stepFinished b stepName =>
    obtain ⟨ts, raw⟩ := b
    simp [eventToJson, decodeEventJson, Json.get, lookupField,
      StepFinishedEvent.ofJson, typeFieldOfJson, validateTypeField,
      typeFieldHasDefault, EventType.toStr, baseOfJson, optIntField,
      decodeOptIntVal_optIntJson, anyField, reqStrField, Except.bind, bind]

/-- C1: Constructing a `TextMessageContentEvent` or a
`ThinkingTextMessageContentEvent` with `delta` equal to the empty string
always fails with a validation error, construction with any non-empty `delta`
succeeds, and the constructed event carries the given `delta` unchanged —
construction never silently coerces an empty delta. -/
theorem c1_empty_delta_rejected (messageId delta : String) (ts : Option Int)
    (raw : Json) :
    (TextMessageContentEvent.construct none messageId delta ts raw =
        .ok (.textMessageContent ⟨ts, raw⟩ messageId delta) ↔ delta ≠ "") ∧
    TextMessageContentEvent.construct none messageId "" ts raw =
      .error ⟨"delta", "String should have at least 1 character"⟩ ∧
    (ThinkingTextMessageContentEvent.construct
        (some "THINKING_TEXT_MESSAGE_CONTENT") delta ts raw =
        .ok (.thinkingTextMessageContent ⟨ts, raw⟩ delta) ↔ delta ≠ "") ∧
    ThinkingTextMessageContentEvent.construct
        (some "THINKING_TEXT_MESSAGE_CONTENT") "" ts raw =
      .error ⟨"delta", "Delta must not be an empty string"⟩ := by
  refine ⟨⟨fun h hde => ?_, fun hne => ?_⟩, rfl, ⟨fun h hde => ?_, fun hne => ?_⟩, rfl⟩
  · subst hde
    exact Except.noConfusion
      ((rfl : TextMessageContentEvent.construct none messageId "" ts raw =
        .error ⟨"delta", "String should have at least 1 character"⟩).symm.trans h)
  · simp [TextMessageContentEvent.construct, validateTypeField,
      typeFieldHasDefault, one_le_length_of_ne_empty delta hne, Except.bind, bind]
  · subst hde
    exact Except.noConfusion
      ((rfl : ThinkingTextMessageContentEvent.construct
        (some "THINKING_TEXT_MESSAGE_CONTENT") "" ts raw =
        .error ⟨"delta", "Delta must not be an empty string"⟩).symm.trans h)
  · have hlen : ¬ delta.length = 0 := by
      have := one_le_length_of_ne_empty delta hne
      omega
    simp [ThinkingTextMessageContentEvent.construct, validateTypeField,
      EventType.toStr, hlen, Except.bind, bind]

/-- C2: A `TextMessageStartEvent` constructed without a role defaults to
`assistant`; construction with an explicit role succeeds exactly when that
role is `assistant`; and every successfully constructed instance serializes
with `role` equal to `assistant`. -/
theorem c2_start_role_is_assistant (messageId : String) (role : Option String)
    (ts : Option Int) (raw : Json) :
    TextMessageStartEvent.construct none messageId none ts raw =
      .ok (.textMessageStart ⟨ts, raw⟩ messageId) ∧
    (∀ r : String, TextMessageStartEvent.construct none messageId (some r) ts raw =
        .ok (.textMessageStart ⟨ts, raw⟩ messageId) ↔ r = "assistant") ∧
    (∀ e : Event, TextMessageStartEvent.construct none messageId role ts raw = .ok e →
        (eventToJson e).get "role" = some (.str "assistant")) := by
  refine ⟨rfl, fun r => ?_, fun e h => ?_⟩
  · by_cases hr : r = "assistant" <;>
      simp [TextMessageStartEvent.construct, validateTypeField,
        typeFieldHasDefault, hr, Except.bind, bind]
  · cases role with
    | none =>
      cases h
      rfl
    | some r =>
      by_cases hr : r = "assistant"
      · subst hr
        cases h
        rfl
      · exact absurd h (by
          simp [TextMessageStartEvent.construct, validateTypeField,
            typeFieldHasDefault, hr, Except.bind, bind])

/-- C2 witness. -/
theorem c2_start_role_is_assistant_witness :
    TextMessageStartEvent.construct none "m1" none none .null =
      .ok (.textMessageStart ⟨none, .null⟩ "m1") ∧
    (eventToJson (.textMessageStart ⟨none, .null⟩ "m1")).get "role" =
      some (.str "assistant") :=
  ⟨(c2_start_role_is_assistant "m1" none none .null).1,
   (c2_start_role_is_assistant "m1" none none .null).2.2 _
     (c2_start_role_is_assistant "m1" none none .null).1⟩

/-- C3: For every concrete event variant the discriminator is fixed:
supplying a `type` value different from the variant's pinned tag fails
validation, a successful `type` validation only ever produces the pinned tag,
and every constructed instance serializes with `type` equal to its variant's
discriminator string. -/
theorem c3_discriminator_fixed :
    (∀ (v : EventType) (s : String), s ≠ v.toStr →
        validateTypeField v (some s) =
          .error ⟨"type", "Input should be " ++ v.toStr ++ ", got " ++ s⟩) ∧
    (∀ (v : EventType) (supplied : Option String) (t : String),
        validateTypeField v supplied = .ok t → t = v.toStr) ∧
    (∀ e : Event, (eventToJson e).get "type" = some (.str e.eventType.toStr)) := by
  refine ⟨fun v s hs => ?_, fun v supplied t h => ?_, fun e => ?_⟩
  · simp [validateTypeField, hs]
  · cases supplied with
    | none =>
      dsimp [validateTypeField] at h
      split at h
      · cases h
        rfl
      · exact Except.noConfusion h
    | some s =>
      dsimp [validateTypeField] at h
      split at h
      · cases h
        assumption
      · exact Except.noConfusion h
  · cases e <;> rfl

/-- C3 witness. -/
theorem c3_discriminator_fixed_witness :
    validateTypeField .TEXT_MESSAGE_START (some "RUN_ERROR") =
      .error ⟨"type", "Input should be TEXT_MESSAGE_START, got RUN_ERROR"⟩ ∧
    "TEXT_MESSAGE_START" = EventType.TEXT_MESSAGE_START.toStr :=
  ⟨c3_discriminator_fixed.1 .TEXT_MESSAGE_START "RUN_ERROR" (by decide),
   c3_discriminator_fixed.2.1 .TEXT_MESSAGE_START (some "TEXT_MESSAGE_START")
     "TEXT_MESSAGE_START" rfl⟩

/-- C8: `TextMessageChunkEvent` can be constructed with `message_id`, `role`
and `delta` all omitted: construction succeeds and each omitted field
defaults to `None`. -/
theorem c8_chunk_all_fields_optional (ts : Option Int) (raw : Json) :
    TextMessageChunkEvent.construct none none none none ts raw =
      .ok (.textMessageChunk ⟨ts, raw⟩ none none none) := rfl

/-- C9: `ToolCallArgsEvent` enforces no non-emptiness on `delta`:
construction with any string delta, including the empty string, succeeds and
preserves the delta. -/
theorem c9_tool_call_args_unconstrained (toolCallId delta : String)
    (ts : Option Int) (raw : Json) :
    ToolCallArgsEvent.construct none toolCallId delta ts raw =
      .ok (.toolCallArgs ⟨ts, raw⟩ toolCallId delta) ∧
    ToolCallArgsEvent.construct none toolCallId "" ts raw =
      .ok (.toolCallArgs ⟨ts, raw⟩ toolCallId "") :=
  ⟨rfl, rfl⟩

/-- C4 counterexample: the round-trip claim fails as stated for "every event
variant" — a valid `ThinkingStartEvent`, once encoded, does not decode back
through the `Event` discriminated union, because the union omits the thinking
variants. -/
theorem c4_roundtrip_counterexample :
    Event.Valid (.thinkingStart ⟨none, .null⟩ none) ∧
    decodeFrame .eventStream
        (EventEncoder.encode .eventStream (.thinkingStart ⟨none, .null⟩ none)) ≠
      .ok (.thinkingStart ⟨none, .null⟩ none) := by
  refine ⟨trivial, fun h => ?_⟩
  exact Except.noConfusion
    ((rfl : decodeFrame .eventStream
        (EventEncoder.encode .eventStream (.thinkingStart ⟨none, .null⟩ none)) =
      .error ⟨"type",
        "Input tag does not match any of the discriminated union members"⟩).symm.trans h)

/-- C4 (amended): for every valid event whose variant is a member of the
`Event` discriminated union, and for both wire sub-formats, decoding the
encoded wire frame yields an event equal to the original — no field is lost
or changed. -/
theorem c4_roundtrip_union (fmt : WireFormat) (e : Event) (hv : e.Valid)
    (hu : e.inUnion = true) :
    decodeFrame fmt (EventEncoder.encode fmt e) = .ok e := by
  have h := decode_encode_union e hv hu
  simp [decodeFrame, EventEncoder.encode, h]

/-- C4 witness. -/
theorem c4_roundtrip_union_witness :
    decodeFrame .eventStream (EventEncoder.encode .eventStream
        (.textMessageContent ⟨some 42, .null⟩ "m1" "Hi")) =
      .ok (.textMessageContent ⟨some 42, .null⟩ "m1" "Hi") ∧
    decodeFrame .jsonLines (EventEncoder.encode .jsonLines
        (.runStarted ⟨none, .null⟩ "t1" "r1")) =
      .ok (.runStarted ⟨none, .null⟩ "t1" "r1") :=
  ⟨c4_roundtrip_union .eventStream _ (show ("Hi" : String) ≠ "" by decide) rfl,
   c4_roundtrip_union .jsonLines _ trivial rfl⟩

/-- C5: Constructing a `RunErrorEvent` without the required `message` field
fails; when every supplied keyword is a declared field the error names
`message` itself; and the exact keyword set the CrewAI endpoint's error path
supplies (`type`, `thread_id`, `run_id`, `error`) fails construction with an
error naming an offending field. -/
theorem c5_missing_message_fails (kwargs : List (String × Json)) :
    ("message" ∉ kwargs.map Prod.fst →
        (RunErrorEvent.fromKwargs kwargs).isOk = false) ∧
    ("message" ∉ kwargs.map Prod.fst →
        (∀ k ∈ kwargs.map Prod.fst, k ∈ RunErrorEvent.fields) →
        RunErrorEvent.fromKwargs kwargs = .error ⟨"message", "Field required"⟩) ∧
    RunErrorEvent.fromKwargs
        [("type", .str "RUN_ERROR"), ("thread_id", .str "t1"),
         ("run_id", .str "r1"), ("error", .str "boom")] =
      .error ⟨"thread_id", "Unexpected keyword argument"⟩ := by
  refine ⟨fun hmsg => ?_, fun hmsg hknown => ?_, rfl⟩
  · have hlook : lookupField "message" kwargs = none :=
      lookupField_eq_none _ _ hmsg
    unfold RunErrorEvent.fromKwargs kwargsConstruct
    cases hfind : (kwargs.map Prod.fst).find?
        (fun k => !(RunErrorEvent.fields.contains k)) with
    | none =>
      simp only [RunErrorEvent.ofJson, reqStrField, Json.get, hlook,
        Except.bind, bind, Except.isOk, Except.toBool]
    | some k => rfl
  · have hfind : (kwargs.map Prod.fst).find?
        (fun k => !(RunErrorEvent.fields.contains k)) = none := by
      rw [List.find?_eq_none]
      intro x hx
      simp [hknown x hx]
    have hlook : lookupField "message" kwargs = none :=
      lookupField_eq_none _ _ hmsg
    unfold RunErrorEvent.fromKwargs kwargsConstruct
    rw [hfind]
    simp only [RunErrorEvent.ofJson, reqStrField, Json.get, hlook,
      Except.bind, bind]

/-- C5 witness. -/
theorem c5_missing_message_fails_witness :
    RunErrorEvent.fromKwargs [("type", Json.str "RUN_ERROR")] =
      .error ⟨"message", "Field required"⟩ :=
  (c5_missing_message_fails _).2.1 (by decide) (by decide)

/-- C6: Whenever some event of the run fails to encode, the stream the ADK
endpoint generator produces ends with a frame that is either the encoding of
the substituted `ENCODING_ERROR` run-error event or the fixed literal SSE
error frame — an encoding failure never lets the stream end without one of
those two frames, and the stream stops there. -/
theorem c6_encoding_failure_surfaced (enc : Event → Except String String)
    (events : List Event) (agentFail : Option String)
    (h : ∃ e ∈ events, (enc e).isOk = false) :
    ∃ pre frame, adkEventGenerator enc events agentFail = pre ++ [frame] ∧
      ((∃ err, enc (encodingErrorEvent err) = .ok frame) ∨
        frame = encodingErrorLiteralFrame) := by
  induction events with
  | nil => simp at h
  | cons e rest ih =>
    cases henc : enc e with
    | error err =>
      cases hsub : enc (encodingErrorEvent err) with
      | ok f =>
        exact ⟨[], f, by simp [adkEventGenerator, henc, hsub], .inl ⟨err, hsub⟩⟩
      | error _ =>
        exact ⟨[], encodingErrorLiteralFrame,
          by simp [adkEventGenerator, henc, hsub], .inr rfl⟩
    | ok frame =>
      have h' : ∃ e' ∈ rest, (enc e').isOk = false := by
        rcases h with ⟨e', he', herr⟩
        rcases List.mem_cons.mp he' with rfl | hmem
        · rw [henc] at herr
          simp [Except.isOk, Except.toBool] at herr
        · exact ⟨e', hmem, herr⟩
      rcases ih h' with ⟨pre, f, hgen, hf⟩
      exact ⟨frame :: pre, f, by simp [adkEventGenerator, henc, hgen], hf⟩

/-- C6 witness. -/
theorem c6_encoding_failure_surfaced_witness :
    ∃ pre frame, adkEventGenerator rawRejectingEncoder
        [.raw ⟨none, .null⟩ .null none] none = pre ++ [frame] ∧
      ((∃ err, rawRejectingEncoder (encodingErrorEvent err) = .ok frame) ∨
        frame = encodingErrorLiteralFrame) :=
  c6_encoding_failure_surfaced rawRejectingEncoder _ none
    ⟨.raw ⟨none, .null⟩ .null none, by simp, rfl⟩

/-- C7: When the agent iterator raises after yielding events that all encode
successfully, the stream the ADK endpoint generator produces ends with a
frame that is either the encoding of the substituted `AGENT_ERROR` run-error
event or the fixed literal SSE error frame — an agent failure never
terminates the stream without one of those two frames. -/
theorem c7_agent_failure_surfaced (enc : Event → Except String String)
    (events : List Event) (agentErr : String)
    (h : ∀ e ∈ events, (enc e).isOk = true) :
    ∃ pre frame, adkEventGenerator enc events (some agentErr) = pre ++ [frame] ∧
      (enc (agentErrorEvent agentErr) = .ok frame ∨
        frame = agentErrorLiteralFrame) := by
  induction events with
  | nil =>
    cases hsub : enc (agentErrorEvent agentErr) with
    | ok f => exact ⟨[], f, by simp [adkEventGenerator, hsub], .inl rfl⟩
    | error _ =>
      exact ⟨[], agentErrorLiteralFrame,
        by simp [adkEventGenerator, hsub], .inr rfl⟩
  | cons e rest ih =>
    have he := h e (List.mem_cons_self e rest)
    cases henc : enc e with
    | error err =>
      rw [henc] at he
      simp [Except.isOk, Except.toBool] at he
    | ok frame =>
      rcases ih (fun e' he' => h e' (List.mem_cons_of_mem e he')) with
        ⟨pre, f, hgen, hf⟩
      exact ⟨frame :: pre, f, by simp [adkEventGenerator, henc, hgen], hf⟩

/-- C7 witness. -/
theorem c7_agent_failure_surfaced_witness :
    ∃ pre frame, adkEventGenerator rawRejectingEncoder [] (some "boom") =
        pre ++ [frame] ∧
      (rawRejectingEncoder (agentErrorEvent "boom") = .ok frame ∨
        frame = agentErrorLiteralFrame) :=
  c7_agent_failure_surfaced rawRejectingEncoder [] "boom" (by simp)

/-- C10: The `Event` discriminated union omits the five thinking variants:
every document whose `type` tag is one of the five thinking tags fails to
decode through the union, even though each standalone thinking event class
accepts its own well-formed document. -/
theorem c10_union_omits_thinking :
    (∀ (j : Json) (tag : String), j.get "type" = some (.str tag) →
        tag ∈ ["THINKING_TEXT_MESSAGE_START", "THINKING_TEXT_MESSAGE_CONTENT",
               "THINKING_TEXT_MESSAGE_END", "THINKING_START", "THINKING_END"] →
        decodeEventJson j =
          .error ⟨"type",
            "Input tag does not match any of the discriminated union members"⟩) ∧
    (∀ b : BaseFields,
        ThinkingTextMessageStartEvent.ofJson
          (eventToJson (.thinkingTextMessageStart b)) =
        .ok (.thinkingTextMessageStart b)) ∧
    (∀ (b : BaseFields) (delta : String), delta ≠ "" →
        ThinkingTextMessageContentEvent.ofJson
          (eventToJson (.thinkingTextMessageContent b delta)) =
        .ok (.thinkingTextMessageContent b delta)) ∧
    (∀ b : BaseFields,
        ThinkingTextMessageEndEvent.ofJson
          (eventToJson (.thinkingTextMessageEnd b)) =
        .ok (.thinkingTextMessageEnd b)) ∧
    (∀ (b : BaseFields) (title : Option String),
        ThinkingStartEvent.ofJson (eventToJson (.thinkingStart b title)) =
        .ok (.thinkingStart b title)) ∧
    (∀ b : BaseFields,
        ThinkingEndEvent.ofJson (eventToJson (.thinkingEnd b)) =
        .ok (.thinkingEnd b)) := by
  refine ⟨fun j tag hget htag => ?_, fun b => ?_, fun b delta hd => ?_,
    fun b => ?_, fun b title => ?_, fun b => ?_⟩
  · simp only [List.mem_cons, List.mem_singleton, List.not_mem_nil, or_false] at htag
    rcases htag with rfl | rfl | rfl | rfl | rfl <;> simp [decodeEventJson, hget]
  · obtain ⟨ts, raw⟩ := b
    simp [eventToJson, ThinkingTextMessageStartEvent.ofJson, typeFieldOfJson,
      validateTypeField, EventType.toStr, Json.get, lookupField, baseOfJson,
      optIntField, decodeOptIntVal_optIntJson, anyField, Except.bind, bind]
  · obtain ⟨ts, raw⟩ := b
    have hlen : ¬ delta.length = 0 := by
      have := one_le_length_of_ne_empty delta hd
      omega
    simp [eventToJson, ThinkingTextMessageContentEvent.ofJson, typeFieldOfJson,
      validateTypeField, EventType.toStr, Json.get, lookupField, baseOfJson,
      optIntField, decodeOptIntVal_optIntJson, anyField, reqStrField, hlen,
      Except.bind, bind]
  · obtain ⟨ts, raw⟩ := b
    simp [eventToJson, ThinkingTextMessageEndEvent.ofJson, typeFieldOfJson,
      validateTypeField, EventType.toStr, Json.get, lookupField, baseOfJson,
      optIntField, decodeOptIntVal_optIntJson, anyField, Except.bind, bind]
  · obtain ⟨ts, raw⟩ := b
    simp [eventToJson, ThinkingStartEvent.ofJson, typeFieldOfJson,
      validateTypeField, EventType.toStr, Json.get, lookupField, baseOfJson,
      optIntField, decodeOptIntVal_optIntJson, anyField, optStrField,
      decodeOptStrVal_optStrJson, Except.bind, bind]
  · obtain ⟨ts, raw⟩ := b
    simp [eventToJson, ThinkingEndEvent.ofJson, typeFieldOfJson,
      validateTypeField, EventType.toStr, Json.get, lookupField, baseOfJson,
      optIntField, decodeOptIntVal_optIntJson, anyField, Except.bind, bind]

/-- C10 witness. -/
theorem c10_union_omits_thinking_witness :
    decodeEventJson (eventToJson (.thinkingStart ⟨none, .null⟩ (some "Plan"))) =
      .error ⟨"type",
        "Input tag does not match any of the discriminated union members"⟩ ∧
    ThinkingStartEvent.ofJson (eventToJson (.thinkingStart ⟨none, .null⟩ (some "Plan"))) =
      .ok (.thinkingStart ⟨none, .null⟩ (some "Plan")) :=
  ⟨c10_union_omits_thinking.1 _ "THINKING_START" rfl (by decide),
   c10_union_omits_thinking.2.2.2.2.1 ⟨none, .null⟩ (some "Plan")⟩

/-- C1 witness. -/
theorem c1_empty_delta_rejected_witness :
    TextMessageContentEvent.construct none "m1" "Hi" none .null =
      .ok (.textMessageContent ⟨none, .null⟩ "m1" "Hi") ∧
    TextMessageContentEvent.construct none "m1" "" none .null =
      .error ⟨"delta", "String should have at least 1 character"⟩ :=
  ⟨(c1_empty_delta_rejected "m1" "Hi" none .null).1.mpr (by decide),
   (c1_empty_delta_rejected "m1" "" none .null).2.1⟩
